import Mathlib

/-!
Verification of the Code360 profile-scraper server (src/server.js).

Strings are modelled as lists of characters (`Str`); JavaScript string
operations (trim, replace of the concrete regexes used, includes,
toLowerCase, substring) are embedded as executable functions on `Str`.
Numbers are modelled as `Int`/`Nat`. The DOM seen by the in-page
extraction script is modelled as a record (`PageModel`) holding, for each
CSS selector the script queries, the text content of the matched element
(or `none` when the selector matches nothing), plus the list of all `div`
text contents in document order for the badge heuristic scan.
-/

namespace Code360

abbrev Str := List Char

/-- Character class of the JavaScript regex `\d` (ASCII decimal digits). -/
def jsIsDigit (c : Char) : Bool :=
  decide (48 ≤ c.toNat) && decide (c.toNat ≤ 57)

/-- JavaScript whitespace (the set recognised by `String.prototype.trim`
and regex `\s`): tab, LF, VT, FF, CR, space, NBSP, and the Unicode
space separators, line separators and BOM. -/
def isJsWhitespace (c : Char) : Bool :=
  decide (c.toNat = 9) || decide (c.toNat = 10) || decide (c.toNat = 11) ||
  decide (c.toNat = 12) || decide (c.toNat = 13) || decide (c.toNat = 32) ||
  decide (c.toNat = 160) || decide (c.toNat = 0x1680) ||
  (decide (0x2000 ≤ c.toNat) && decide (c.toNat ≤ 0x200a)) ||
  decide (c.toNat = 0x2028) || decide (c.toNat = 0x2029) ||
  decide (c.toNat = 0x202f) || decide (c.toNat = 0x205f) ||
  decide (c.toNat = 0x3000) || decide (c.toNat = 0xfeff)

/-- ASCII lower-casing of a single character, as `String.prototype.toLowerCase`
acts on the ASCII letters relevant to the keywords compared in the source. -/
def toLowerCh (c : Char) : Char :=
  if 65 ≤ c.toNat ∧ c.toNat ≤ 90 then Char.ofNat (c.toNat + 32) else c

/-- JavaScript `toLowerCase`, character-wise. -/
def toLowerStr (s : Str) : Str := s.map toLowerCh

/-- Character class of the JavaScript regex `\w` (ASCII letters, digits, underscore). -/
def isWordChar (c : Char) : Bool :=
  jsIsDigit c || decide (65 ≤ c.toNat) && decide (c.toNat ≤ 90) ||
  decide (97 ≤ c.toNat) && decide (c.toNat ≤ 122) || decide (c.toNat = 95)

/-- Leading-whitespace removal, the first half of JavaScript `trim`. -/
def jsTrimStart (s : Str) : Str := s.dropWhile isJsWhitespace

/-- Trailing-whitespace removal, the second half of JavaScript `trim`. -/
def jsTrimEnd (s : Str) : Str := (s.reverse.dropWhile isJsWhitespace).reverse

/-- JavaScript `String.prototype.trim`. -/
def jsTrim (s : Str) : Str := jsTrimEnd (jsTrimStart s)

/-- JavaScript `String.prototype.includes` (case-sensitive substring test). -/
def containsSubstr (s pat : Str) : Bool :=
  match s with
  | [] => List.isPrefixOf pat []
  | _ :: rest => List.isPrefixOf pat s || containsSubstr rest pat

/-- First maximal run of digits in a string, as matched by the regex `\d+`
(used on the total-problems text). -/
def firstDigitRun : Str → Option Str
  | [] => none
  | c :: rest =>
    if jsIsDigit c then some (c :: rest.takeWhile jsIsDigit)
    else firstDigitRun rest

/-- Value of a digit string read in base 10. -/
def digitsToNat (s : Str) : Nat :=
  s.foldl (fun acc c => acc * 10 + (c.toNat - 48)) 0

/-- Maximal leading digit run of a string parsed in base 10, `none` when the
string does not start with a digit (the digit-parsing core of `parseInt`). -/
def digitRunVal (s : Str) : Option Int :=
  let d := s.takeWhile jsIsDigit
  if d = [] then none else some ((digitsToNat d : Nat) : Int)

/-- JavaScript `parseInt` with radix 10: skip leading whitespace, optional
sign, then the maximal digit run; `none` models `NaN`. -/
def jsParseInt (s : Str) : Option Int :=
  match jsTrimStart s with
  | [] => none
  | c :: rest =>
    if c = '-' then (digitRunVal rest).map (fun n => -n)
    else if c = '+' then digitRunVal rest
    else digitRunVal (c :: rest)

/-- src/server.js, `parseNumber` (lines 29-33): falsy input (absent or
empty) gives 0; otherwise all non-digit characters are removed and the
remainder is fed to `parseInt`, with `|| 0` recovering 0 from `NaN`. -/
def parseNumber (text : Option Str) : Int :=
  match text with
  | none => 0
  | some s =>
    if s = [] then 0
    else
      match jsParseInt (s.filter jsIsDigit) with
      | none => 0
      | some n => if n = 0 then 0 else n

/-- Case-insensitive literal prefix matcher: when the pattern matches a
prefix of the string up to ASCII case, return the remainder. -/
def matchCIAfter : Str → Str → Option Str
  | [], s => some s
  | _ :: _, [] => none
  | p :: ps, c :: cs => if toLowerCh c = toLowerCh p then matchCIAfter ps cs else none

/-- Tail of the regex `^(Joined on|Member since):?\s*`: an optional colon
followed by any run of whitespace. -/
def afterColonWs (s : Str) : Str :=
  match s with
  | ':' :: rest => jsTrimStart rest
  | _ => jsTrimStart s

/-- JavaScript `replace(/^(Joined on|Member since):?\s*/i, '')`: strip a
single leading case-insensitive date prefix with optional colon and
trailing whitespace; a string with no such prefix is returned unchanged. -/
def stripDateLead (s : Str) : Str :=
  match matchCIAfter ("Joined on".data) s with
  | some rest => afterColonWs rest
  | none =>
    match matchCIAfter ("Member since".data) s with
    | some rest => afterColonWs rest
    | none => s

/-- src/server.js, `parseDate` (lines 36-42): falsy input (absent or empty
string) gives null; otherwise trim, strip the date prefix, trim again. -/
def parseDate (text : Option Str) : Option Str :=
  match text with
  | none => none
  | some s =>
    if s = [] then none
    else some (jsTrim (stripDateLead (jsTrim s)))

/-- Leading pattern of the badge regex `^\d+\s+\w+`: one or more digits,
one or more whitespace characters, then at least one word character. -/
def numWordLead (s : Str) : Bool :=
  let d := s.takeWhile jsIsDigit
  let r1 := s.dropWhile jsIsDigit
  let w := r1.takeWhile isJsWhitespace
  let r2 := r1.dropWhile isJsWhitespace
  decide (d ≠ []) && decide (w ≠ []) &&
    (match r2 with
     | c :: _ => isWordChar c
     | [] => false)

/-- Predicate of the badge heuristic scan (src/server.js lines 224-227): the
trimmed text must match `^\d+\s+\w+` and, lower-cased, contain one of the
keywords "achiever", "badge", "rank". -/
def badgeMatches (text : Str) : Bool :=
  let t := jsTrim text
  numWordLead t &&
    (containsSubstr (toLowerStr t) ("achiever".data) ||
     containsSubstr (toLowerStr t) ("badge".data) ||
     containsSubstr (toLowerStr t) ("rank".data))

/-- Badge scan over all `div` elements in document order (src/server.js lines
223-234): the badge is the trimmed text of the first element satisfying
`badgeMatches`; no match leaves it null. -/
def findBadge (divTexts : List Str) : Option Str :=
  (divTexts.find? badgeMatches).map jsTrim

/-- Text of the streak sub-elements inside `.current-and-longest-text-container`
(the three `.text-container ... .day-count-text p` selectors). -/
structure StreakTexts where
  current : Option Str
  longest : Option Str
  freeze : Option Str

/-- Rendered page as observed by the in-page extraction script: for each
selector it queries, the text content of the matched element (`none` when
the selector matches nothing), plus the body text, the title, the URL and
the list of all `div` text contents in document order. -/
structure PageModel where
  bodyText : Str
  title : Str
  url : Str
  totalText : Option Str
  difficulties : List (Option Str × Option Str)
  streak : Option StreakTexts
  joinedDateSel1 : Option Str
  joinedDateSel2 : Option Str
  joinedDateSel3 : Option Str
  xpText : Option Str
  divTexts : List Str

/-- Raw string-valued statistics assembled by the in-page script
(src/server.js lines 111-126 ff). -/
structure RawStats where
  totalSolved : Str
  easySolved : Str
  moderateSolved : Str
  hardSolved : Str
  ninjaSolved : Str
  currentStreak : Str
  longestStreak : Str
  streakFreezeLeft : Str
  joinedDate : Option Str
  expcount : Str
  badge : Option Str
  pageTitle : Str
  url : Str
  pageContent : Str

/-- Per-difficulty result of the forEach loop over `.difficulty-wise
.difficulty` (src/server.js lines 141-164): each entry with both a value and
a title whose trimmed lower-cased title equals the given name overwrites the
field, so the last matching entry wins; no match keeps the default "0".
The loop in the source updates the four fields of one record in a single
pass; this per-field reading is the same function on each field. -/
def difficultyValue (ds : List (Option Str × Option Str)) (name : Str) : Str :=
  ds.foldl
    (fun acc vt =>
      match vt.1, vt.2 with
      | some v, some ti => if toLowerStr (jsTrim ti) = name then jsTrim v else acc
      | _, _ => acc)
    ("0".data)

/-- First joined-date candidate among the three selectors tried in priority
order (src/server.js lines 199-201). -/
def joinedCandidate (page : PageModel) : Option Str :=
  (page.joinedDateSel1.orElse fun _ =>
    (page.joinedDateSel2.orElse fun _ => page.joinedDateSel3))

/-- In-page extraction script (src/server.js lines 110-238): every field is
extracted independently from its own selector, keeping its default when the
selector finds nothing. -/
def extractStats (page : PageModel) : RawStats :=
  { totalSolved :=
      match page.totalText with
      | some t => ((firstDigitRun (jsTrim t)).getD ("0".data))
      | none => "0".data
    easySolved := difficultyValue page.difficulties ("easy".data)
    moderateSolved := difficultyValue page.difficulties ("moderate".data)
    hardSolved := difficultyValue page.difficulties ("hard".data)
    ninjaSolved := difficultyValue page.difficulties ("ninja".data)
    currentStreak :=
      match page.streak with
      | some st => match st.current with
        | some t => jsTrim t
        | none => "0".data
      | none => "0".data
    longestStreak :=
      match page.streak with
      | some st => match st.longest with
        | some t => jsTrim t
        | none => "0".data
      | none => "0".data
    streakFreezeLeft :=
      match page.streak with
      | some st => match st.freeze with
        | some t => jsTrim t
        | none => "0".data
      | none => "0".data
    joinedDate :=
      match joinedCandidate page with
      | some t => some (jsTrim t)
      | none => none
    expcount :=
      match page.xpText with
      | some t => jsTrim t
      | none => "0".data
    badge := findBadge page.divTexts
    pageTitle := page.title
    url := page.url
    pageContent := page.bodyText.take 1000 }

/-- JavaScript `Error` value: only the message is observed by the program. -/
structure JsError where
  message : Str
deriving DecidableEq

/-- Error thrown when a not-found marker is present (src/server.js line 106). -/
def notFoundError : JsError :=
  { message := "Code360 profile not found".data }

/-- Not-found re-check after the waits (src/server.js lines 98-103): the page
exists when the body text contains none of the three case-sensitive markers. -/
def profileExists (bodyText : Str) : Bool :=
  !(containsSubstr bodyText ("Profile not found".data)) &&
  !(containsSubstr bodyText ("404".data)) &&
  !(containsSubstr bodyText ("User not found".data))

/-- Coerced statistics record returned by `scrapeCode360Puppeteer`
(src/server.js lines 242-257). -/
structure NormalizedStats where
  totalSolved : Int
  easySolved : Int
  moderateSolved : Int
  hardSolved : Int
  ninjaSolved : Int
  currentStreak : Int
  longestStreak : Int
  streakFreezeLeft : Int
  joinedDate : Option Str
  expcount : Int
  badge : Option Str
  pageTitle : Str
  url : Str
  debug : Str
deriving DecidableEq

/-- Coercion of the raw record (src/server.js lines 242-257). -/
def normalizeRaw (s : RawStats) : NormalizedStats :=
  { totalSolved := parseNumber (some s.totalSolved)
    easySolved := parseNumber (some s.easySolved)
    moderateSolved := parseNumber (some s.moderateSolved)
    hardSolved := parseNumber (some s.hardSolved)
    ninjaSolved := parseNumber (some s.ninjaSolved)
    currentStreak := parseNumber (some s.currentStreak)
    longestStreak := parseNumber (some s.longestStreak)
    streakFreezeLeft := parseNumber (some s.streakFreezeLeft)
    joinedDate := parseDate s.joinedDate
    expcount := parseNumber (some s.expcount)
    badge := s.badge
    pageTitle := s.pageTitle
    url := s.url
    debug := s.pageContent }

/-- Portion of `scrapeCode360Puppeteer` that runs after the layered waits
complete (src/server.js lines 98-257): the not-found re-check, then the
in-page extraction and coercion. -/
def puppeteerAfterWaits (page : PageModel) : Except JsError NormalizedStats :=
  if profileExists page.bodyText then Except.ok (normalizeRaw (extractStats page))
  else Except.error notFoundError

/-- Appearance times of the three awaited sections of the page: the instant
(in ms after navigation) at which each selector first matches, `none` when
it never does. -/
structure LoadTimes where
  problemsSolved : Option Nat
  streakContainer : Option Nat
  xpPoints : Option Nat

/-- Message of the puppeteer `TimeoutError` thrown by `waitForSelector`,
modelled from the library's message format, which contains the lower-case
word "timeout" tested by the source's `includes('timeout')` checks. -/
def timeoutMessage (sel : Str) (ms : Nat) : Str :=
  "waiting for selector ".data ++ (sel ++ (" failed: ".data ++ ("timeout".data ++
    (" ".data ++ ((Nat.repr ms).data ++ "ms exceeded".data)))))

/-- One `waitForSelector` call: succeeds when the selector appears within its
budget, otherwise rejects with a timeout error message. -/
def waitFor (appear : Option Nat) (budgetMs : Nat) (sel : Str) : Except Str Unit :=
  match appear with
  | some a => if a ≤ budgetMs then Except.ok () else Except.error (timeoutMessage sel budgetMs)
  | none => Except.error (timeoutMessage sel budgetMs)

/-- Catch block of the wait section (src/server.js lines 92-95): a caught
error whose message contains "timeout" is re-thrown wrapped in a new
message; any other caught error is only logged and execution continues. -/
def escalateWaitMsg (m : Str) : Except JsError Unit :=
  if containsSubstr m ("timeout".data) then
    Except.error { message := "Page element not found or timed out: ".data ++ m }
  else Except.ok ()

/-- Layered wait strategy (src/server.js lines 80-95): a mandatory wait for
`.problems-solved` (20s), then a mandatory wait for
`.current-and-longest-text-container` (10s), both escalated through the
catch block on failure; then a best-effort wait for `.xp-points` (5s) whose
rejection is swallowed by an inline catch. -/
def layeredWaits (lt : LoadTimes) : Except JsError Unit :=
  match waitFor lt.problemsSolved 20000 (".problems-solved".data) with
  | Except.error m => escalateWaitMsg m
  | Except.ok () =>
    match waitFor lt.streakContainer 10000 (".current-and-longest-text-container".data) with
    | Except.error m => escalateWaitMsg m
    | Except.ok () =>
      match waitFor lt.xpPoints 5000 (".xp-points".data) with
      | Except.error _ => Except.ok ()
      | Except.ok () => Except.ok ()

/-- Full extraction pipeline of `scrapeCode360Puppeteer` after navigation:
layered waits, then the not-found re-check and field extraction. -/
def scrapeCode360Puppeteer (lt : LoadTimes) (page : PageModel) :
    Except JsError NormalizedStats :=
  match layeredWaits lt with
  | Except.error e => Except.error e
  | Except.ok () => puppeteerAfterWaits page

/-- JavaScript falsiness of a string-or-null field (null or empty string). -/
def jsFalsyStrOpt (o : Option Str) : Bool :=
  match o with
  | none => true
  | some s => decide (s = [])

/-- All-default test of `scrapeCode360` (src/server.js lines 271-274): every
numeric field zero and both joinedDate and badge falsy. -/
def isAllDefault (s : NormalizedStats) : Bool :=
  decide (s.totalSolved = 0) && decide (s.easySolved = 0) &&
  decide (s.moderateSolved = 0) && decide (s.hardSolved = 0) &&
  decide (s.ninjaSolved = 0) && decide (s.currentStreak = 0) &&
  decide (s.longestStreak = 0) && decide (s.streakFreezeLeft = 0) &&
  jsFalsyStrOpt s.joinedDate && decide (s.expcount = 0) && jsFalsyStrOpt s.badge

/-- src/server.js, `scrapeCode360` (lines 267-284): propagates a scraper
failure unchanged; on success, checks the all-default condition (the Bool in
the result records whether the diagnostic warning was emitted) and returns
the statistics record unmodified. -/
def scrapeCode360 (r : Except JsError NormalizedStats) :
    Except JsError (NormalizedStats × Bool) :=
  match r with
  | Except.error e => Except.error e
  | Except.ok stats => Except.ok (stats, isAllDefault stats)

/-- All-default normalized record: every numeric field zero, joinedDate and
badge null. -/
def defaultNormalized : NormalizedStats :=
  { totalSolved := 0, easySolved := 0, moderateSolved := 0, hardSolved := 0
    ninjaSolved := 0, currentStreak := 0, longestStreak := 0, streakFreezeLeft := 0
    joinedDate := none, expcount := 0, badge := none
    pageTitle := [], url := [], debug := [] }

/-- JavaScript `x || 0` on a number. -/
def jsNumOrZero (n : Int) : Int := if n = 0 then 0 else n

/-- JavaScript `x || null` on a string-or-null value ("" is falsy). -/
def jsStrOrNull (o : Option Str) : Option Str :=
  match o with
  | none => none
  | some s => if s = [] then none else some s

/-- Output record of `formatCode360Data` (src/server.js lines 287-301). -/
structure FormattedCore where
  totalSolved : Int
  easySolved : Int
  mediumSolved : Int
  hardSolved : Int
  ninjaSolved : Int
  currentStreak : Int
  longestStreak : Int
  streakFreezeLeft : Int
  joinedDate : Option Str
  expcount : Int
  badge : Option Str
deriving DecidableEq

/-- src/server.js, `formatCode360Data` (lines 287-301): default-if-falsy on
every field; `moderateSolved` is renamed to `mediumSolved`. -/
def formatCode360Data (stats : NormalizedStats) : FormattedCore :=
  { totalSolved := jsNumOrZero stats.totalSolved
    easySolved := jsNumOrZero stats.easySolved
    mediumSolved := jsNumOrZero stats.moderateSolved
    hardSolved := jsNumOrZero stats.hardSolved
    ninjaSolved := jsNumOrZero stats.ninjaSolved
    currentStreak := jsNumOrZero stats.currentStreak
    longestStreak := jsNumOrZero stats.longestStreak
    streakFreezeLeft := jsNumOrZero stats.streakFreezeLeft
    joinedDate := jsStrOrNull stats.joinedDate
    expcount := jsNumOrZero stats.expcount
    badge := jsStrOrNull stats.badge }

/-- Flat response schema served by `GET /api/code360/:username`
(src/server.js lines 327-351), placeholder fields included. -/
structure PublicProfileResponse where
  status : Str
  message : Str
  username : Str
  joinedDate : Option Str
  totalSolved : Int
  totalQuestions : Int
  easySolved : Int
  totalEasy : Int
  mediumSolved : Int
  totalMedium : Int
  hardSolved : Int
  totalHard : Int
  ninjaSolved : Int
  acceptanceRate : Rat
  ranking : Int
  contributionPoints : Int
  reputation : Int
  submissionCalendar : List (Str × Int)
  currentStreak : Int
  longestStreak : Int
  streakFreezeLeft : Int
  expcount : Int
  badge : Option Str
deriving DecidableEq

/-- Construction of `finalResponse` (src/server.js lines 327-351). -/
def buildFinalResponse (username : Str) (f : FormattedCore) : PublicProfileResponse :=
  { status := "success".data
    message := "retrieved".data
    username := username
    joinedDate := f.joinedDate
    totalSolved := f.totalSolved
    totalQuestions := 0
    easySolved := f.easySolved
    totalEasy := 0
    mediumSolved := f.mediumSolved
    totalMedium := 0
    hardSolved := f.hardSolved
    totalHard := 0
    ninjaSolved := f.ninjaSolved
    acceptanceRate := 0
    ranking := 0
    contributionPoints := 0
    reputation := 0
    submissionCalendar := []
    currentStreak := f.currentStreak
    longestStreak := f.longestStreak
    streakFreezeLeft := f.streakFreezeLeft
    expcount := f.expcount
    badge := f.badge }

/-- Cache TTL constant `CACHE_DURATION` (src/server.js line 26), in ms. -/
def CACHE_DURATION : Nat := 10 * 60 * 1000

/-- One cache entry (src/server.js lines 353-356). -/
structure CacheEntry where
  data : PublicProfileResponse
  timestamp : Nat
deriving DecidableEq

/-- The in-memory cache `Map`, as an association list in insertion order. -/
abbrev Cache := List (Str × CacheEntry)

/-- JavaScript `Map.get`. -/
def cacheGet (c : Cache) (k : Str) : Option CacheEntry :=
  match c with
  | [] => none
  | (k2, e) :: rest => if k2 = k then some e else cacheGet rest k

/-- JavaScript `Map.set`: replaces an existing key in place, otherwise
appends. -/
def cacheSet (c : Cache) (k : Str) (e : CacheEntry) : Cache :=
  match c with
  | [] => [(k, e)]
  | (k2, e2) :: rest =>
    if k2 = k then (k, e) :: rest else (k2, e2) :: cacheSet rest k e

/-- `POST /api/cache/clear` (src/server.js lines 424-427): empties the cache
and returns its confirmation message. -/
def handleCacheClear (_c : Cache) : Cache × Str :=
  ([], "Cache cleared successfully".data)

/-- Response emitted by the profile endpoint: 200 with the profile JSON, or
one of the error shapes of src/server.js lines 312, 364, 368, 371-375. -/
inductive ApiResponse where
  | ok (r : PublicProfileResponse)
  | badRequest (err : Str)
  | timeout408 (err : Str)
  | notFound404 (err : Str)
  | failure500 (status msg details : Str)
deriving DecidableEq

/-- HTTP status code of each response shape. -/
def statusOf : ApiResponse → Nat
  | ApiResponse.ok _ => 200
  | ApiResponse.badRequest _ => 400
  | ApiResponse.timeout408 _ => 408
  | ApiResponse.notFound404 _ => 404
  | ApiResponse.failure500 _ _ _ => 500

/-- Catch block of the profile endpoint (src/server.js lines 360-376):
message containing "timeout" maps to 408, else containing "not found" maps
to 404, anything else to 500 with the error message as detail. -/
def errorResponseFor (e : JsError) : ApiResponse :=
  if containsSubstr e.message ("timeout".data) then
    ApiResponse.timeout408
      ("Request timeout - Code360 profile took too long to load or element not found.".data)
  else if containsSubstr e.message ("not found".data) then
    ApiResponse.notFound404 ("Code360 profile not found".data)
  else
    ApiResponse.failure500 ("error".data) ("Failed to scrape Code360 profile".data) e.message

/-- Observable outcome of one profile request: the response sent, the cache
afterwards, and whether the scraper was invoked. -/
structure HandlerResult where
  response : ApiResponse
  cache : Cache
  fetcherCalled : Bool
deriving DecidableEq

/-- Cache-miss path of the profile endpoint (src/server.js lines 322-358 and
the catch at 360-376): invoke the scraper, and on success format, cache
under the key and respond; on failure respond with the mapped error leaving
the cache untouched. The scraper outcome is passed in as `fr`. -/
def fetchAndRespond (c : Cache) (now : Nat) (username key : Str)
    (fr : Except JsError NormalizedStats) : HandlerResult :=
  match scrapeCode360 fr with
  | Except.error e => { response := errorResponseFor e, cache := c, fetcherCalled := true }
  | Except.ok (stats, _) =>
    let resp := buildFinalResponse username (formatCode360Data stats)
    { response := ApiResponse.ok resp
      cache := cacheSet c key { data := resp, timestamp := now }
      fetcherCalled := true }

/-- `GET /api/code360/:username` handler (src/server.js lines 308-377):
reject an empty username with 400, otherwise consult the cache under
`code360_` + username and serve a fresh entry without scraping; on a miss
or stale entry run the scrape path. -/
def handleProfileGet (c : Cache) (now : Nat) (username : Str)
    (fr : Except JsError NormalizedStats) : HandlerResult :=
  if username = [] then
    { response := ApiResponse.badRequest ("Username is required".data)
      cache := c, fetcherCalled := false }
  else
    let key := "code360_".data ++ username
    match cacheGet c key with
    | some en =>
      if now - en.timestamp < CACHE_DURATION then
        { response := ApiResponse.ok en.data, cache := c, fetcherCalled := false }
      else fetchAndRespond c now username key fr
    | none => fetchAndRespond c now username key fr

/-- Freshness test of the cache lookup in the handler. -/
def freshHit (c : Cache) (now : Nat) (k : Str) : Bool :=
  match cacheGet c k with
  | some en => now - en.timestamp < CACHE_DURATION
  | none => false

/-- Whether a `waitForSelector` call with the given appearance time and
budget times out. -/
def timesOutB (appear : Option Nat) (budgetMs : Nat) : Bool :=
  match appear with
  | none => true
  | some a => decide (budgetMs < a)

/-- Error produced by an escalated mandatory-wait timeout. -/
def escalatedError (sel : Str) (b : Nat) : JsError :=
  { message := "Page element not found or timed out: ".data ++ timeoutMessage sel b }

/-- Concrete page whose body text contains a not-found marker. -/
def examplePageMissing : PageModel :=
  { bodyText := "Oops. Profile not found here.".data
    title := [], url := [], totalText := none, difficulties := []
    streak := none, joinedDateSel1 := none, joinedDateSel2 := none
    joinedDateSel3 := none, xpText := none, divTexts := [] }

/-- Concrete page whose body text contains no not-found marker. -/
def examplePagePlain : PageModel :=
  { bodyText := "All good here.".data
    title := [], url := [], totalText := none, difficulties := []
    streak := none, joinedDateSel1 := none, joinedDateSel2 := none
    joinedDateSel3 := none, xpText := none, divTexts := [] }

/-! Helper lemmas about the string operations. -/

theorem digit_not_ws (c : Char) (h : jsIsDigit c = true) : isJsWhitespace c = false := by
  simp only [jsIsDigit, Bool.and_eq_true, decide_eq_true_eq] at h
  simp only [isJsWhitespace, Bool.or_eq_false_iff, Bool.and_eq_false_iff,
    decide_eq_false_iff_not]
  omega

theorem digit_ne_minus (c : Char) (h : jsIsDigit c = true) : c ≠ '-' := by
  intro hc
  subst hc
  exact absurd h (by decide)

theorem digit_ne_plus (c : Char) (h : jsIsDigit c = true) : c ≠ '+' := by
  intro hc
  subst hc
  exact absurd h (by decide)

theorem trimStart_all_digits (l : Str) (h : ∀ x ∈ l, jsIsDigit x = true) :
    jsTrimStart l = l := by
  cases l with
  | nil => rfl
  | cons c cs =>
    have : isJsWhitespace c = false := digit_not_ws c (h c (by simp))
    simp [jsTrimStart, List.dropWhile_cons, this]

theorem takeWhile_all_digits (l : Str) (h : ∀ x ∈ l, jsIsDigit x = true) :
    l.takeWhile jsIsDigit = l := by
  induction l with
  | nil => rfl
  | cons c cs ih =>
    have hc : jsIsDigit c = true := h c (by simp)
    simp only [List.takeWhile_cons, hc, if_true]
    rw [ih (fun x hx => h x (by simp [hx]))]

theorem jsParseInt_all_digits (l : Str) (h : ∀ x ∈ l, jsIsDigit x = true) :
    jsParseInt l = if l = [] then none else some ((digitsToNat l : Nat) : Int) := by
  unfold jsParseInt
  rw [trimStart_all_digits l h]
  cases l with
  | nil => rfl
  | cons c cs =>
    have hc : jsIsDigit c = true := h c (by simp)
    show (if c = '-' then (digitRunVal cs).map (fun n => -n)
          else if c = '+' then digitRunVal cs else digitRunVal (c :: cs)) =
        if c :: cs = [] then none else some ((digitsToNat (c :: cs) : Nat) : Int)
    rw [if_neg (digit_ne_minus c hc), if_neg (digit_ne_plus c hc)]
    unfold digitRunVal
    rw [takeWhile_all_digits (c :: cs) h]

theorem parseNumber_eq_digits (s : Str) :
    parseNumber (some s) = ((digitsToNat (s.filter jsIsDigit) : Nat) : Int) := by
  show (if s = [] then (0 : Int)
        else
          match jsParseInt (s.filter jsIsDigit) with
          | none => 0
          | some n => if n = 0 then 0 else n) =
      ((digitsToNat (s.filter jsIsDigit) : Nat) : Int)
  by_cases hs : s = []
  · subst hs
    simp [digitsToNat]
  · rw [if_neg hs]
    have hall : ∀ x ∈ s.filter jsIsDigit, jsIsDigit x = true :=
      fun x hx => (List.mem_filter.mp hx).2
    rw [jsParseInt_all_digits _ hall]
    by_cases hf : s.filter jsIsDigit = []
    · simp [hf, digitsToNat]
    · rw [if_neg hf]
      by_cases h0 : ((digitsToNat (s.filter jsIsDigit) : Nat) : Int) = 0
      · simp [h0]
      · simp [h0]

/-! Helper lemmas for the date-prefix strip. -/

theorem jsTrimEnd_eq_rdropWhile (l : Str) :
    jsTrimEnd l = List.rdropWhile isJsWhitespace l := rfl

theorem trimStart_of_pre (l q : Str) (hl : jsTrimStart l = l) (hq : q <+: l) :
    jsTrimStart q = q := by
  obtain ⟨t, rfl⟩ := hq
  unfold jsTrimStart at hl ⊢
  rw [List.dropWhile_eq_self_iff] at hl ⊢
  intro h
  have h2 : 0 < (q ++ t).length := by
    rw [List.length_append]
    omega
  have h3 := hl h2
  rw [List.get_eq_getElem] at h3 ⊢
  rwa [List.getElem_append_left h] at h3

theorem trimEnd_eq_iff (q : Str) :
    jsTrimEnd q = q ↔ jsTrimStart q.reverse = q.reverse := by
  unfold jsTrimEnd jsTrimStart
  constructor
  · intro h
    have := congrArg List.reverse h
    rwa [List.reverse_reverse] at this
  · intro h
    rw [h, List.reverse_reverse]

theorem trimEnd_of_sfx (l q : Str) (hl : jsTrimEnd l = l) (hq : q <:+ l) :
    jsTrimEnd q = q := by
  rw [trimEnd_eq_iff] at hl ⊢
  exact trimStart_of_pre l.reverse q.reverse hl (List.reverse_prefix.mpr hq)

theorem matchCIAfter_sfx :
    ∀ (pat s r : Str), matchCIAfter pat s = some r → r <:+ s := by
  intro pat
  induction pat with
  | nil =>
    intro s r h
    simp only [matchCIAfter, Option.some.injEq] at h
    exact h ▸ List.suffix_refl s
  | cons p ps ih =>
    intro s r h
    cases s with
    | nil => exact absurd h (by simp [matchCIAfter])
    | cons c cs =>
      simp only [matchCIAfter] at h
      by_cases hc : toLowerCh c = toLowerCh p
      · rw [if_pos hc] at h
        exact (ih cs r h).trans (List.suffix_cons c cs)
      · rw [if_neg hc] at h
        exact absurd h (by simp)

theorem afterColonWs_sfx (s : Str) : afterColonWs s <:+ s := by
  unfold afterColonWs
  split
  · exact (List.dropWhile_suffix _).trans (List.suffix_cons _ _)
  · exact List.dropWhile_suffix _

theorem afterColonWs_trimStart (s : Str) :
    jsTrimStart (afterColonWs s) = afterColonWs s := by
  unfold afterColonWs
  split
  · exact List.dropWhile_idempotent _ _
  · exact List.dropWhile_idempotent _ _

theorem stripDateLead_sfx (t : Str) : stripDateLead t <:+ t := by
  unfold stripDateLead
  split
  · next rest h => exact (afterColonWs_sfx rest).trans (matchCIAfter_sfx _ t rest h)
  · split
    · next rest h => exact (afterColonWs_sfx rest).trans (matchCIAfter_sfx _ t rest h)
    · exact List.suffix_refl t

theorem stripDateLead_trimStart (t : Str) (ht : jsTrimStart t = t) :
    jsTrimStart (stripDateLead t) = stripDateLead t := by
  unfold stripDateLead
  split
  · exact afterColonWs_trimStart _
  · split
    · exact afterColonWs_trimStart _
    · exact ht

theorem trim_stripDateLead (s : Str) :
    jsTrim (stripDateLead (jsTrim s)) = stripDateLead (jsTrim s) := by
  have h1 : jsTrimStart (jsTrim s) = jsTrim s := by
    have hpre : jsTrim s <+: jsTrimStart s := by
      rw [jsTrim, jsTrimEnd_eq_rdropWhile]
      exact List.rdropWhile_prefix _ _
    exact trimStart_of_pre (jsTrimStart s) (jsTrim s) (List.dropWhile_idempotent _ _) hpre
  have h2 : jsTrimEnd (jsTrim s) = jsTrim s := by
    rw [jsTrim, jsTrimEnd_eq_rdropWhile, jsTrimEnd_eq_rdropWhile]
    exact List.rdropWhile_idempotent _ _
  have h3 := stripDateLead_trimStart (jsTrim s) h1
  have h4 := trimEnd_of_sfx (jsTrim s) _ h2 (stripDateLead_sfx (jsTrim s))
  rw [jsTrim, h3, h4]

theorem jsNumOrZero_eq (n : Int) : jsNumOrZero n = n := by
  unfold jsNumOrZero
  split
  · next h => exact h.symm
  · rfl

/-! Claim theorems. -/

/-- C1: `parseNumber` is total and non-negative; for every input it returns
the base-10 integer formed by concatenating the digit characters of the
input in order (all non-digit characters, a minus sign included, stripped),
with null, empty and digit-free input giving 0; in particular
parseNumber("1,234") = 1234, parseNumber("") = 0, parseNumber("abc") = 0,
parseNumber(null) = 0 and parseNumber("-5") = 5. -/
theorem parseNumber_spec :
    (∀ t : Option Str,
      parseNumber t = ((digitsToNat ((t.getD []).filter jsIsDigit) : Nat) : Int)) ∧
    (∀ t : Option Str, 0 ≤ parseNumber t) ∧
    parseNumber (some ("1,234".data)) = 1234 ∧
    parseNumber (some ("".data)) = 0 ∧
    parseNumber (some ("abc".data)) = 0 ∧
    parseNumber none = 0 ∧
    parseNumber (some ("-5".data)) = 5 := by
  have main : ∀ t : Option Str,
      parseNumber t = ((digitsToNat ((t.getD []).filter jsIsDigit) : Nat) : Int) := by
    intro t
    cases t with
    | none => decide
    | some s => simpa using parseNumber_eq_digits s
  refine ⟨main, fun t => ?_, by decide, by decide, by decide, by decide, by decide⟩
  rw [main t]
  exact Int.natCast_nonneg _

/-- C2 (counterexample): the claim states that every non-null input is
returned as its trimmed, prefix-stripped remainder, so on the empty string
it predicts the empty-string remainder; the code instead treats the empty
string as falsy and returns null. -/
theorem parseDate_empty_cex :
    parseDate (some ("".data)) = none ∧
    (none : Option Str) ≠ some (stripDateLead (jsTrim ("".data))) :=
  ⟨rfl, by decide⟩

/-- C2 (amended): `parseDate` is total: null, absent or EMPTY input returns
null; any other input is trimmed of surrounding whitespace, one leading
case-insensitive prefix "Joined on" or "Member since" (with optional
trailing colon and whitespace) is stripped, and the remainder is returned
unchanged (the code's final trim is proved to be a no-op); in particular
parseDate("Joined on: March 2021") = "March 2021",
parseDate("  Member since:June 2020") = "June 2020", parseDate(null) = null
and parseDate("March 2021") = "March 2021". -/
theorem parseDate_amended_spec :
    parseDate none = none ∧
    parseDate (some ("".data)) = none ∧
    (∀ s : Str, parseDate (some s) =
      if s = [] then none else some (stripDateLead (jsTrim s))) ∧
    parseDate (some ("Joined on: March 2021".data)) = some ("March 2021".data) ∧
    parseDate (some ("  Member since:June 2020".data)) = some ("June 2020".data) ∧
    parseDate (some ("March 2021".data)) = some ("March 2021".data) := by
  refine ⟨rfl, rfl, ?_, by decide, by decide, by decide⟩
  intro s
  show (if s = [] then none else some (jsTrim (stripDateLead (jsTrim s)))) = _
  by_cases hs : s = []
  · rw [if_pos hs, if_pos hs]
  · rw [if_neg hs, if_neg hs, trim_stripDateLead]

/-- C3: the Response Formatter is pure and total with a fixed output schema:
for every NormalizedProfileStats input the response carries every fixed
field; the placeholder fields totalQuestions, totalEasy, totalMedium,
totalHard, ranking, contributionPoints, reputation are always 0,
acceptanceRate 0.0 and submissionCalendar the empty mapping; each numeric
field passes through the default-if-falsy rule (which on integers is the
identity, 0 mapping to 0), and falsy joinedDate and badge become null. -/
theorem formatter_fixed_schema (stats : NormalizedStats) (u : Str) :
    (buildFinalResponse u (formatCode360Data stats)).status = "success".data ∧
    (buildFinalResponse u (formatCode360Data stats)).message = "retrieved".data ∧
    (buildFinalResponse u (formatCode360Data stats)).username = u ∧
    (buildFinalResponse u (formatCode360Data stats)).totalQuestions = 0 ∧
    (buildFinalResponse u (formatCode360Data stats)).totalEasy = 0 ∧
    (buildFinalResponse u (formatCode360Data stats)).totalMedium = 0 ∧
    (buildFinalResponse u (formatCode360Data stats)).totalHard = 0 ∧
    (buildFinalResponse u (formatCode360Data stats)).acceptanceRate = 0 ∧
    (buildFinalResponse u (formatCode360Data stats)).ranking = 0 ∧
    (buildFinalResponse u (formatCode360Data stats)).contributionPoints = 0 ∧
    (buildFinalResponse u (formatCode360Data stats)).reputation = 0 ∧
    (buildFinalResponse u (formatCode360Data stats)).submissionCalendar = [] ∧
    (buildFinalResponse u (formatCode360Data stats)).totalSolved = stats.totalSolved ∧
    (buildFinalResponse u (formatCode360Data stats)).easySolved = stats.easySolved ∧
    (buildFinalResponse u (formatCode360Data stats)).mediumSolved = stats.moderateSolved ∧
    (buildFinalResponse u (formatCode360Data stats)).hardSolved = stats.hardSolved ∧
    (buildFinalResponse u (formatCode360Data stats)).ninjaSolved = stats.ninjaSolved ∧
    (buildFinalResponse u (formatCode360Data stats)).currentStreak = stats.currentStreak ∧
    (buildFinalResponse u (formatCode360Data stats)).longestStreak = stats.longestStreak ∧
    (buildFinalResponse u (formatCode360Data stats)).streakFreezeLeft = stats.streakFreezeLeft ∧
    (buildFinalResponse u (formatCode360Data stats)).expcount = stats.expcount ∧
    (buildFinalResponse u (formatCode360Data stats)).joinedDate = jsStrOrNull stats.joinedDate ∧
    (buildFinalResponse u (formatCode360Data stats)).badge = jsStrOrNull stats.badge :=
  ⟨rfl, rfl, rfl, rfl, rfl, rfl, rfl, rfl, rfl, rfl, rfl, rfl,
   jsNumOrZero_eq _, jsNumOrZero_eq _, jsNumOrZero_eq _, jsNumOrZero_eq _,
   jsNumOrZero_eq _, jsNumOrZero_eq _, jsNumOrZero_eq _, jsNumOrZero_eq _,
   jsNumOrZero_eq _, rfl, rfl⟩

/-- C5: the Profile Fetcher treats the all-default result as success: on the
record with all numeric fields zero and joinedDate and badge null it emits
the diagnostic warning (the Bool in the result) but still returns the
record unchanged as a non-error outcome, and every successful scrape result
is likewise returned without raising. -/
theorem all_default_success :
    scrapeCode360 (Except.ok defaultNormalized) = Except.ok (defaultNormalized, true) ∧
    (∀ s : NormalizedStats,
      scrapeCode360 (Except.ok s) = Except.ok (s, isAllDefault s)) :=
  ⟨rfl, fun _ => rfl⟩

/-- C9: a profile request with an empty username is answered 400 with the
body error "Username is required", the cache is left untouched and the
fetcher is not invoked. -/
theorem empty_username_400 (c : Cache) (now : Nat) (fr : Except JsError NormalizedStats) :
    handleProfileGet c now [] fr =
      { response := ApiResponse.badRequest ("Username is required".data)
        cache := c
        fetcherCalled := false } := rfl

/-- C4: after the layered waits, if the body text contains any of the
case-sensitive markers "Profile not found", "404" or "User not found", the
extractor fails with the profile-not-found error before any field
extraction; when none is present it proceeds to field extraction and
coercion. -/
theorem not_found_detection (page : PageModel) :
    ((containsSubstr page.bodyText ("Profile not found".data) = true ∨
      containsSubstr page.bodyText ("404".data) = true ∨
      containsSubstr page.bodyText ("User not found".data) = true) →
      puppeteerAfterWaits page = Except.error notFoundError) ∧
    (containsSubstr page.bodyText ("Profile not found".data) = false →
     containsSubstr page.bodyText ("404".data) = false →
     containsSubstr page.bodyText ("User not found".data) = false →
      puppeteerAfterWaits page = Except.ok (normalizeRaw (extractStats page))) := by
  constructor
  · intro h
    have hex : profileExists page.bodyText = false := by
      unfold profileExists
      rcases h with h | h | h <;> simp [h]
    unfold puppeteerAfterWaits
    rw [hex]
    rfl
  · intro h1 h2 h3
    have hex : profileExists page.bodyText = true := by
      unfold profileExists
      simp [h1, h2, h3]
    unfold puppeteerAfterWaits
    rw [hex]
    rfl

/-- C4 witness: the not-found branch at a concrete page carrying a marker,
and the extraction branch at a concrete marker-free page. -/
theorem not_found_detection_witness :
    puppeteerAfterWaits examplePageMissing = Except.error notFoundError ∧
    puppeteerAfterWaits examplePagePlain =
      Except.ok (normalizeRaw (extractStats examplePagePlain)) :=
  ⟨(not_found_detection examplePageMissing).1 (Or.inl (by decide)),
   (not_found_detection examplePagePlain).2 (by decide) (by decide) (by decide)⟩

/-! Helper lemmas for the wait and status-mapping claim. -/

theorem containsSubstr_of_isPre (s pat : Str) (h : List.isPrefixOf pat s = true) :
    containsSubstr s pat = true := by
  cases s with
  | nil => simpa [containsSubstr] using h
  | cons c cs => simp [containsSubstr, h]

theorem containsSubstr_append_right (a s pat : Str) (h : containsSubstr s pat = true) :
    containsSubstr (a ++ s) pat = true := by
  induction a with
  | nil => simpa
  | cons c cs ih =>
    show (List.isPrefixOf pat (c :: (cs ++ s)) || containsSubstr (cs ++ s) pat) = true
    simp only [Bool.or_eq_true]
    exact Or.inr ih

theorem isPre_self_append (pat b : Str) : List.isPrefixOf pat (pat ++ b) = true := by
  rw [List.isPrefixOf_iff_prefix]
  exact List.prefix_append pat b

theorem timeoutMessage_has_timeout (sel : Str) (ms : Nat) :
    containsSubstr (timeoutMessage sel ms) ("timeout".data) = true := by
  unfold timeoutMessage
  apply containsSubstr_append_right
  apply containsSubstr_append_right
  apply containsSubstr_append_right
  exact containsSubstr_of_isPre _ _ (isPre_self_append _ _)

theorem waitFor_timedOut (appear : Option Nat) (b : Nat) (sel : Str)
    (h : timesOutB appear b = true) :
    waitFor appear b sel = Except.error (timeoutMessage sel b) := by
  cases appear with
  | none => rfl
  | some a =>
    simp only [timesOutB, decide_eq_true_eq] at h
    show (if a ≤ b then Except.ok () else Except.error (timeoutMessage sel b)) = _
    rw [if_neg (by omega)]

theorem waitFor_within (appear : Option Nat) (b : Nat) (sel : Str)
    (h : timesOutB appear b = false) :
    waitFor appear b sel = Except.ok () := by
  cases appear with
  | none => exact absurd h (by simp [timesOutB])
  | some a =>
    simp only [timesOutB, decide_eq_false_iff_not, not_lt] at h
    show (if a ≤ b then Except.ok () else Except.error (timeoutMessage sel b)) = _
    rw [if_pos h]

theorem escalate_of_timeout (m : Str) (h : containsSubstr m ("timeout".data) = true) :
    escalateWaitMsg m =
      Except.error { message := "Page element not found or timed out: ".data ++ m } := by
  unfold escalateWaitMsg
  rw [if_pos h]

theorem errorResponse_of_timeout (e : JsError)
    (h : containsSubstr e.message ("timeout".data) = true) :
    statusOf (errorResponseFor e) = 408 := by
  unfold errorResponseFor
  rw [if_pos h]
  rfl

theorem escalatedError_status (sel : Str) (b : Nat) :
    statusOf (errorResponseFor (escalatedError sel b)) = 408 :=
  errorResponse_of_timeout _
    (containsSubstr_append_right _ _ _ (timeoutMessage_has_timeout sel b))

/-- C6: a timeout of the mandatory 20s problems-container wait or the
mandatory 10s streak-container wait escalates to a timeout-class failure
that the endpoint maps to 408; a timeout of the best-effort 5s
experience-points wait is swallowed and the waits succeed; the
profile-not-found error maps to 404; and every error whose message carries
neither "timeout" nor "not found" maps to 500 with the error message as
detail string. -/
theorem layered_wait_status_mapping :
    (∀ lt : LoadTimes, timesOutB lt.problemsSolved 20000 = true →
      layeredWaits lt = Except.error (escalatedError (".problems-solved".data) 20000) ∧
      statusOf (errorResponseFor (escalatedError (".problems-solved".data) 20000)) = 408) ∧
    (∀ lt : LoadTimes, timesOutB lt.problemsSolved 20000 = false →
      timesOutB lt.streakContainer 10000 = true →
      layeredWaits lt =
        Except.error (escalatedError (".current-and-longest-text-container".data) 10000) ∧
      statusOf (errorResponseFor
        (escalatedError (".current-and-longest-text-container".data) 10000)) = 408) ∧
    (∀ lt : LoadTimes, timesOutB lt.problemsSolved 20000 = false →
      timesOutB lt.streakContainer 10000 = false →
      layeredWaits lt = Except.ok ()) ∧
    statusOf (errorResponseFor notFoundError) = 404 ∧
    (∀ e : JsError, containsSubstr e.message ("timeout".data) = false →
      containsSubstr e.message ("not found".data) = false →
      errorResponseFor e = ApiResponse.failure500 ("error".data)
        ("Failed to scrape Code360 profile".data) e.message ∧
      statusOf (errorResponseFor e) = 500) := by
  refine ⟨?_, ?_, ?_, rfl, ?_⟩
  · intro lt h
    refine ⟨?_, escalatedError_status _ _⟩
    unfold layeredWaits
    rw [waitFor_timedOut _ _ _ h]
    show escalateWaitMsg (timeoutMessage (".problems-solved".data) 20000) = _
    exact escalate_of_timeout _ (timeoutMessage_has_timeout _ _)
  · intro lt h1 h2
    refine ⟨?_, escalatedError_status _ _⟩
    unfold layeredWaits
    rw [waitFor_within _ _ _ h1]
    show (match waitFor lt.streakContainer 10000
            (".current-and-longest-text-container".data) with
          | Except.error m => escalateWaitMsg m
          | Except.ok () =>
            match waitFor lt.xpPoints 5000 (".xp-points".data) with
            | Except.error _ => Except.ok ()
            | Except.ok () => Except.ok ()) = _
    rw [waitFor_timedOut _ _ _ h2]
    show escalateWaitMsg (timeoutMessage (".current-and-longest-text-container".data) 10000) = _
    exact escalate_of_timeout _ (timeoutMessage_has_timeout _ _)
  · intro lt h1 h2
    unfold layeredWaits
    rw [waitFor_within _ _ _ h1]
    show (match waitFor lt.streakContainer 10000
            (".current-and-longest-text-container".data) with
          | Except.error m => escalateWaitMsg m
          | Except.ok () =>
            match waitFor lt.xpPoints 5000 (".xp-points".data) with
            | Except.error _ => Except.ok ()
            | Except.ok () => Except.ok ()) = _
    rw [waitFor_within _ _ _ h2]
    cases waitFor lt.xpPoints 5000 (".xp-points".data) with
    | error m => rfl
    | ok u => rfl
  · intro e h1 h2
    constructor
    · unfold errorResponseFor
      rw [h1, h2]
      rfl
    · unfold errorResponseFor
      rw [h1, h2]
      rfl

/-- C6 witness: the three wait outcomes at concrete appearance times, and
the 500 mapping at a concrete unrelated error. -/
theorem layered_wait_status_mapping_witness :
    (layeredWaits ⟨none, some 0, some 0⟩ =
        Except.error (escalatedError (".problems-solved".data) 20000) ∧
      statusOf (errorResponseFor (escalatedError (".problems-solved".data) 20000)) = 408) ∧
    (layeredWaits ⟨some 15000, some 99999, some 0⟩ =
        Except.error (escalatedError (".current-and-longest-text-container".data) 10000) ∧
      statusOf (errorResponseFor
        (escalatedError (".current-and-longest-text-container".data) 10000)) = 408) ∧
    layeredWaits ⟨some 15000, some 9000, none⟩ = Except.ok () ∧
    (errorResponseFor { message := "boom".data } = ApiResponse.failure500 ("error".data)
        ("Failed to scrape Code360 profile".data) ("boom".data) ∧
      statusOf (errorResponseFor { message := "boom".data }) = 500) :=
  ⟨layered_wait_status_mapping.1 ⟨none, some 0, some 0⟩ rfl,
   layered_wait_status_mapping.2.1 ⟨some 15000, some 99999, some 0⟩ (by decide) (by decide),
   layered_wait_status_mapping.2.2.1 ⟨some 15000, some 9000, none⟩ (by decide) (by decide),
   layered_wait_status_mapping.2.2.2.2 { message := "boom".data } (by decide) (by decide)⟩

/-! Helper lemmas for the endpoint cache claims. -/

theorem cacheGet_cacheSet_self (c : Cache) (k : Str) (e : CacheEntry) :
    cacheGet (cacheSet c k e) k = some e := by
  induction c with
  | nil => simp [cacheSet, cacheGet]
  | cons p rest ih =>
    obtain ⟨k2, e2⟩ := p
    by_cases hk : k2 = k
    · subst hk
      simp [cacheSet, cacheGet]
    · simp [cacheSet, cacheGet, hk, ih]

theorem handleProfileGet_fresh_miss (c : Cache) (now : Nat) (u : Str)
    (fr : Except JsError NormalizedStats) (hu : u ≠ [])
    (hfresh : freshHit c now ("code360_".data ++ u) = false) :
    handleProfileGet c now u fr = fetchAndRespond c now u ("code360_".data ++ u) fr := by
  cases hg : cacheGet c ("code360_".data ++ u) with
  | none =>
    unfold handleProfileGet
    rw [if_neg hu]
    show (match cacheGet c ("code360_".data ++ u) with
          | some en =>
            if now - en.timestamp < CACHE_DURATION then
              ({ response := ApiResponse.ok en.data, cache := c,
                 fetcherCalled := false } : HandlerResult)
            else fetchAndRespond c now u ("code360_".data ++ u) fr
          | none => fetchAndRespond c now u ("code360_".data ++ u) fr) = _
    rw [hg]
  | some en =>
    have hlt : ¬ (now - en.timestamp < CACHE_DURATION) := by
      unfold freshHit at hfresh
      rw [hg] at hfresh
      simpa using hfresh
    unfold handleProfileGet
    rw [if_neg hu]
    show (match cacheGet c ("code360_".data ++ u) with
          | some en =>
            if now - en.timestamp < CACHE_DURATION then
              ({ response := ApiResponse.ok en.data, cache := c,
                 fetcherCalled := false } : HandlerResult)
            else fetchAndRespond c now u ("code360_".data ++ u) fr
          | none => fetchAndRespond c now u ("code360_".data ++ u) fr) = _
    rw [hg]
    show (if now - en.timestamp < CACHE_DURATION then
            ({ response := ApiResponse.ok en.data, cache := c,
               fetcherCalled := false } : HandlerResult)
          else fetchAndRespond c now u ("code360_".data ++ u) fr) = _
    rw [if_neg hlt]

theorem freshHit_of_none (c : Cache) (now : Nat) (k : Str)
    (h : cacheGet c k = none) : freshHit c now k = false := by
  unfold freshHit
  rw [h]

theorem freshHit_mono (c : Cache) (now now2 : Nat) (k : Str)
    (h : freshHit c now k = false) (hle : now ≤ now2) :
    freshHit c now2 k = false := by
  cases hg : cacheGet c k with
  | none =>
    unfold freshHit
    rw [hg]
  | some en =>
    unfold freshHit at h ⊢
    rw [hg] at h ⊢
    simp only [decide_eq_false_iff_not, not_lt] at h ⊢
    omega

/-- C7: the profile endpoint caches a successful result under the key
"code360_" + username with the username's exact casing and the 600-second
TTL constant; a second request for the same username within the TTL returns
the identical response without invoking the fetcher, leaving the cache
unchanged, and this holds whatever the fetcher would produce on the second
call; clearing the cache empties it and returns the confirmation message,
after which a further request invokes the fetcher again. -/
theorem cache_contract (c : Cache) (now now2 now3 : Nat) (u : Str)
    (stats : NormalizedStats) (fr2 fr3 : Except JsError NormalizedStats)
    (hu : u ≠ []) (hmiss : cacheGet c ("code360_".data ++ u) = none)
    (httl : now2 - now < CACHE_DURATION) :
    CACHE_DURATION = 600 * 1000 ∧
    (handleProfileGet c now u (Except.ok stats)).fetcherCalled = true ∧
    (handleProfileGet c now u (Except.ok stats)).response =
      ApiResponse.ok (buildFinalResponse u (formatCode360Data stats)) ∧
    cacheGet (handleProfileGet c now u (Except.ok stats)).cache ("code360_".data ++ u) =
      some { data := buildFinalResponse u (formatCode360Data stats), timestamp := now } ∧
    (handleProfileGet (handleProfileGet c now u (Except.ok stats)).cache now2 u
        fr2).response = (handleProfileGet c now u (Except.ok stats)).response ∧
    (handleProfileGet (handleProfileGet c now u (Except.ok stats)).cache now2 u
        fr2).fetcherCalled = false ∧
    (handleProfileGet (handleProfileGet c now u (Except.ok stats)).cache now2 u
        fr2).cache = (handleProfileGet c now u (Except.ok stats)).cache ∧
    handleCacheClear (handleProfileGet c now u (Except.ok stats)).cache =
      ([], "Cache cleared successfully".data) ∧
    (handleProfileGet
        (handleCacheClear (handleProfileGet c now u (Except.ok stats)).cache).1 now3 u
        fr3).fetcherCalled = true := by
  have hr1 : handleProfileGet c now u (Except.ok stats) =
      { response := ApiResponse.ok (buildFinalResponse u (formatCode360Data stats))
        cache := cacheSet c ("code360_".data ++ u)
          { data := buildFinalResponse u (formatCode360Data stats), timestamp := now }
        fetcherCalled := true } := by
    rw [handleProfileGet_fresh_miss c now u _ hu (freshHit_of_none c now _ hmiss)]
    rfl
  have hr2 : handleProfileGet (handleProfileGet c now u (Except.ok stats)).cache now2 u
      fr2 =
      { response := ApiResponse.ok (buildFinalResponse u (formatCode360Data stats))
        cache := (handleProfileGet c now u (Except.ok stats)).cache
        fetcherCalled := false } := by
    rw [hr1]
    unfold handleProfileGet
    rw [if_neg hu]
    simp only [cacheGet_cacheSet_self]
    rw [if_pos httl]
  have hr3 : (handleProfileGet
      (handleCacheClear (handleProfileGet c now u (Except.ok stats)).cache).1 now3 u
      fr3).fetcherCalled = true := by
    rw [hr1]
    show (handleProfileGet [] now3 u fr3).fetcherCalled = true
    rw [handleProfileGet_fresh_miss [] now3 u fr3 hu (freshHit_of_none [] now3 _ rfl)]
    unfold fetchAndRespond
    cases fr3 with
    | error e => rfl
    | ok s => rfl
  refine ⟨rfl, ?_, ?_, ?_, ?_, ?_, ?_, rfl, hr3⟩
  · rw [hr1]
  · rw [hr1]
  · rw [hr1]
    exact cacheGet_cacheSet_self c _ _
  · rw [hr2, hr1]
  · rw [hr2]
  · rw [hr2]

/-- C7 witness: the cache contract exercised from the empty cache at
concrete times for the username "Codushan". -/
theorem cache_contract_witness :
    ("Codushan".data ≠ ([] : Str) ∧
      cacheGet [] ("code360_".data ++ "Codushan".data) = none ∧
      1000 - 0 < CACHE_DURATION) ∧
    (handleProfileGet [] 0 ("Codushan".data) (Except.ok defaultNormalized)).fetcherCalled
      = true ∧
    (handleProfileGet
        (handleProfileGet [] 0 ("Codushan".data) (Except.ok defaultNormalized)).cache 1000
        ("Codushan".data) (Except.error { message := [] })).fetcherCalled = false ∧
    (handleProfileGet
        (handleProfileGet [] 0 ("Codushan".data) (Except.ok defaultNormalized)).cache 1000
        ("Codushan".data) (Except.error { message := [] })).response =
      (handleProfileGet [] 0 ("Codushan".data) (Except.ok defaultNormalized)).response ∧
    (handleProfileGet
        (handleCacheClear
          (handleProfileGet [] 0 ("Codushan".data) (Except.ok defaultNormalized)).cache).1
        2000 ("Codushan".data) (Except.ok defaultNormalized)).fetcherCalled = true :=
  ⟨⟨by decide, rfl, by decide⟩,
   (cache_contract [] 0 1000 2000 ("Codushan".data) defaultNormalized
      (Except.error { message := [] }) (Except.ok defaultNormalized)
      (by decide) rfl (by decide)).2.1,
   (cache_contract [] 0 1000 2000 ("Codushan".data) defaultNormalized
      (Except.error { message := [] }) (Except.ok defaultNormalized)
      (by decide) rfl (by decide)).2.2.2.2.2.1,
   (cache_contract [] 0 1000 2000 ("Codushan".data) defaultNormalized
      (Except.error { message := [] }) (Except.ok defaultNormalized)
      (by decide) rfl (by decide)).2.2.2.2.1,
   (cache_contract [] 0 1000 2000 ("Codushan".data) defaultNormalized
      (Except.error { message := [] }) (Except.ok defaultNormalized)
      (by decide) rfl (by decide)).2.2.2.2.2.2.2.2⟩

/-- C8: the badge extracted by the in-page script is the scan over the div
texts in document order; the first element whose text satisfies the
number-then-word pattern and the case-insensitive keyword test wins, its
trimmed text becoming the badge, and when no element matches the badge is
left null. -/
theorem badge_scan_spec :
    (∀ page : PageModel, (extractStats page).badge = findBadge page.divTexts) ∧
    (∀ (pre : List Str) (x : Str) (post : List Str),
      (∀ y ∈ pre, badgeMatches y = false) → badgeMatches x = true →
      findBadge (pre ++ x :: post) = some (jsTrim x)) ∧
    (∀ l : List Str, (∀ y ∈ l, badgeMatches y = false) → findBadge l = none) := by
  refine ⟨fun page => rfl, ?_, ?_⟩
  · intro pre x post hpre hx
    induction pre with
    | nil =>
      unfold findBadge
      rw [List.nil_append, List.find?_cons_of_pos _ hx]
      rfl
    | cons a as ih =>
      have ha : badgeMatches a = false := hpre a (by simp)
      unfold findBadge at ih ⊢
      rw [List.cons_append, List.find?_cons_of_neg _ (by simp [ha])]
      exact ih (fun y hy => hpre y (by simp [hy]))
  · intro l hl
    unfold findBadge
    rw [List.find?_eq_none.mpr (fun y hy => by simp [hl y hy])]
    rfl

/-- C8 witness: the scan at a concrete div list with one matching element,
and at a concrete list with none. -/
theorem badge_scan_spec_witness :
    findBadge [" no digits here ".data, "5 Star Achiever".data, "77 whatever".data] =
      some (jsTrim ("5 Star Achiever".data)) ∧
    findBadge ["plain text".data] = none :=
  ⟨badge_scan_spec.2.1 [" no digits here ".data] ("5 Star Achiever".data)
      ["77 whatever".data] (by decide) (by decide),
   badge_scan_spec.2.2 ["plain text".data] (by decide)⟩

/-- C10: when the scrape path runs (non-empty username, no fresh cache
entry) and the fetcher fails, the handler returns the mapped error
response, leaves the cache exactly as it was, and a later request for the
same username runs the scrape path again — error responses are never
cached. -/
theorem error_not_cached (c : Cache) (now now2 : Nat) (u : Str) (e : JsError)
    (hu : u ≠ []) (hfresh : freshHit c now ("code360_".data ++ u) = false)
    (hle : now ≤ now2) :
    (handleProfileGet c now u (Except.error e)).cache = c ∧
    (handleProfileGet c now u (Except.error e)).fetcherCalled = true ∧
    (handleProfileGet c now u (Except.error e)).response = errorResponseFor e ∧
    statusOf (handleProfileGet c now u (Except.error e)).response ≠ 200 ∧
    (handleProfileGet c now2 u (Except.error e)).fetcherCalled = true := by
  have hr : handleProfileGet c now u (Except.error e) =
      { response := errorResponseFor e, cache := c, fetcherCalled := true } := by
    rw [handleProfileGet_fresh_miss c now u _ hu hfresh]
    rfl
  have hr2 : handleProfileGet c now2 u (Except.error e) =
      { response := errorResponseFor e, cache := c, fetcherCalled := true } := by
    rw [handleProfileGet_fresh_miss c now2 u _ hu (freshHit_mono c now now2 _ hfresh hle)]
    rfl
  refine ⟨by rw [hr], by rw [hr], by rw [hr], ?_, by rw [hr2]⟩
  rw [hr]
  show statusOf (errorResponseFor e) ≠ 200
  unfold errorResponseFor
  split
  · simp [statusOf]
  · split
    · simp [statusOf]
    · simp [statusOf]

/-- C10 witness: a failing fetch at a concrete request against the empty
cache is not cached and a later request fetches again. -/
theorem error_not_cached_witness :
    (handleProfileGet [] 0 ("Codushan".data)
        (Except.error { message := "boom".data })).cache = ([] : Cache) ∧
    (handleProfileGet [] 0 ("Codushan".data)
        (Except.error { message := "boom".data })).fetcherCalled = true ∧
    (handleProfileGet [] 0 ("Codushan".data)
        (Except.error { message := "boom".data })).response =
      errorResponseFor { message := "boom".data } ∧
    statusOf (handleProfileGet [] 0 ("Codushan".data)
        (Except.error { message := "boom".data })).response ≠ 200 ∧
    (handleProfileGet [] 5 ("Codushan".data)
        (Except.error { message := "boom".data })).fetcherCalled = true :=
  error_not_cached [] 0 5 ("Codushan".data) { message := "boom".data }
    (by decide) rfl (by decide)

end Code360
